import Mathlib

/-!
Shallow embedding of src/relay_control.py (class RelayControl).

The Python program is a Tkinter GUI controlling a single-channel USB relay
behind a CH340 USB-serial adapter.  We embed the four operational methods
(find_ch340_device, initialize_serial — here init_serial —, check_connection
and toggle_relay) as pure state transformers over an explicit record of the
object's fields, together with ghost fields recording externally visible
facts the specification talks about: the table of currently open OS-level
serial handles, a flag recording whether two handles were ever open at the
same instant, the number of probe attempts performed by discovery, and the
last successfully transmitted wire frame.

The outside world (device enumeration, success of opens and writes, path
existence) is an oracle record Env supplied at each call; a run of the
state machine is a list of (operation, environment) pairs.

Modelling note on handle release: in CPython, rebinding self.serial_port
(to None or to a fresh object) drops the last reference to the previous
serial.Serial object, whose finalizer closes the port; we model such a
rebinding as an immediate close of the corresponding handle (the reading
most favourable to the single-handle invariant).  Probe handles opened by
the with-statement in find_ch340_device are closed on exit of the
with-block, so they are never retained in the open-handle table; a probe
handle being open at the same instant as a held live handle is recorded in
the ghost flag everTwoOpen.
-/

/-- One candidate tty device as reported by pyudev: its device node and the
optional ID_VENDOR_ID / ID_MODEL_ID properties. -/
structure Device where
  node : String
  vendorId : Option String
  modelId : Option String
  deriving Repr, DecidableEq

/-- The oracle for one operation call: the current device enumeration,
whether a probe open and a probe write succeed on a given node, whether the
full-parameter serial open succeeds on a path, whether a path exists on the
filesystem, and whether a write+flush on the live handle succeeds. -/
structure Env where
  devices : List Device
  probeOpenOk : String → Bool
  probeWriteOk : String → Bool
  openOk : String → Bool
  pathExists : String → Bool
  writeOk : Bool

/-- The fields of the RelayControl object that the operational methods read
or write, plus ghost fields (openHandles, nextHandle, everTwoOpen,
probeCount, lastSent) modelling the OS handle table and the wire. -/
structure RCState where
  relay_status : Bool
  serial_port : Option Nat
  device_path : Option String
  statusText : String
  buttonEnabled : Bool
  buttonText : String
  deviceInfoText : String
  openHandles : List Nat
  nextHandle : Nat
  everTwoOpen : Bool
  probeCount : Nat
  lastSent : Option (List Nat)
  deriving Repr, DecidableEq

/-- The 4-byte relay ON frame A0 01 01 A2. -/
def onFrame : List Nat := [0xA0, 0x01, 0x01, 0xA2]

/-- The 4-byte relay OFF frame A0 01 00 A1. -/
def offFrame : List Nat := [0xA0, 0x01, 0x00, 0xA1]

/-- Does the first list start with the second argument pattern? -/
def startsWithL : List Char → List Char → Bool
  | [], _ => true
  | _ :: _, [] => false
  | a :: as, b :: bs => a == b && startsWithL as bs

/-- Does the needle occur as a contiguous run inside the haystack list? -/
def hasSubL (needle : List Char) : List Char → Bool
  | [] => startsWithL needle []
  | b :: bs => startsWithL needle (b :: bs) || hasSubL needle bs

/-- Python's substring containment test (needle in hay). -/
def hasSub (needle hay : String) : Bool :=
  hasSubL needle.toList hay.toList

/-- Pass-1 identity test: ID_VENDOR_ID equals 1a86 and ID_MODEL_ID equals
7523 (CH340 vendor and product IDs). -/
def isCH340 (d : Device) : Bool :=
  d.vendorId == some "1a86" && d.modelId == some "7523"

/-- The pass-2 probing loop of find_ch340_device: for each enumerated device
whose node contains ttyUSB, open it with a 1s timeout, write the OFF frame,
and accept the first node for which both succeed; any error is swallowed
and the scan continues.  The probe handle opened by the with-statement is
closed on block exit, so openHandles is not changed; its transient
coexistence with a held live handle is recorded in everTwoOpen. -/
def probeLoop (env : Env) (s : RCState) : List Device → RCState
  | [] =>
    { s with device_path := none, deviceInfoText := "Device: Not found" }
  | d :: ds =>
    if hasSub "ttyUSB" d.node then
      if env.probeOpenOk d.node then
        if env.probeWriteOk d.node then
          { s with probeCount := s.probeCount + 1,
                   everTwoOpen := s.everTwoOpen || !s.openHandles.isEmpty,
                   lastSent := some offFrame,
                   device_path := some d.node,
                   deviceInfoText := "Device: " ++ d.node }
        else
          probeLoop env
            { s with probeCount := s.probeCount + 1,
                     everTwoOpen := s.everTwoOpen || !s.openHandles.isEmpty } ds
      else
        probeLoop env { s with probeCount := s.probeCount + 1 } ds
    else
      probeLoop env s ds

/-- find_ch340_device: pass 1 returns the first identity-matched device;
only if none exists does the probing fallback over the same enumeration
run.  On total failure device_path is cleared and the info label set. -/
def find_ch340_device (env : Env) (s : RCState) : RCState :=
  match env.devices.find? isCH340 with
  | some d =>
    { s with device_path := some d.node, deviceInfoText := "Device: " ++ d.node }
  | none => probeLoop env s env.devices

/-- Closing / releasing the currently referenced live handle (explicit
close at the top of init_serial, or CPython dropping the last reference on
rebinding of self.serial_port). -/
def closePort (s : RCState) : RCState :=
  match s.serial_port with
  | some h => { s with serial_port := none, openHandles := s.openHandles.erase h }
  | none => s

/-- update_status: set relay_status and the dependent labels. -/
def update_status (b : Bool) (s : RCState) : RCState :=
  { s with relay_status := b,
           statusText := if b then "ON" else "OFF",
           buttonText := if b then "Turn OFF" else "Turn ON" }

/-- initialize_serial: close any held handle, rediscover if no path is
selected, then open the path with fixed parameters; on success reset the
relay status display to OFF and enable the button, on any serial failure
show Error, disable the button and hold no handle. -/
def init_serial (env : Env) (s : RCState) : RCState :=
  let s1 := closePort s
  let s2 := if s1.device_path = none then find_ch340_device env s1 else s1
  match s2.device_path with
  | none =>
    { closePort s2 with statusText := "Error", buttonEnabled := false }
  | some p =>
    if env.openOk p then
      { update_status false
        { s2 with serial_port := some s2.nextHandle,
                  openHandles := s2.openHandles ++ [s2.nextHandle],
                  nextHandle := s2.nextHandle + 1,
                  everTwoOpen := s2.everTwoOpen || !s2.openHandles.isEmpty }
        with buttonEnabled := true }
    else
      { closePort s2 with statusText := "Error", buttonEnabled := false }

/-- The health-check guard: no path selected, or the selected path no
longer exists on the filesystem. -/
def pathMissing (env : Env) (s : RCState) : Bool :=
  match s.device_path with
  | none => true
  | some p => !env.pathExists p

/-- check_connection: on a missing path, rediscover; only if rediscovery
fails show Error, disable the button and drop the handle reference.  When
the path exists but no handle is held, reinitialize.  Otherwise no action.
(The 1-second rescheduling via root.after is external cadence, not state.) -/
def check_connection (env : Env) (s : RCState) : RCState :=
  if pathMissing env s then
    let s1 := find_ch340_device env s
    if s1.device_path = none then
      { closePort s1 with statusText := "Error", buttonEnabled := false }
    else
      s1
  else if s.serial_port = none then
    init_serial env s
  else
    s

/-- toggle_relay: with no handle, just initialize and return.  Otherwise
write the frame opposite to relay_status and flush; on success record the
frame and flip the status; on a serial failure show Error, drop the handle
reference and immediately reinitialize within the same call. -/
def toggle_relay (env : Env) (s : RCState) : RCState :=
  match s.serial_port with
  | none => init_serial env s
  | some _ =>
    if env.writeOk then
      if !s.relay_status then
        update_status true { s with lastSent := some onFrame }
      else
        update_status false { s with lastSent := some offFrame }
    else
      init_serial env { closePort s with statusText := "Error" }

/-- The three operations a caller can invoke. -/
inductive Op
  | initOp
  | toggleOp
  | healthOp
  deriving Repr, DecidableEq

/-- One step: dispatch an operation under its environment. -/
def step (s : RCState) : Op × Env → RCState
  | (Op.initOp, e) => init_serial e s
  | (Op.toggleOp, e) => toggle_relay e s
  | (Op.healthOp, e) => check_connection e s

/-- A run of the state machine over a list of (operation, environment)
pairs. -/
def run : RCState → List (Op × Env) → RCState
  | s, [] => s
  | s, oe :: l => run (step s oe) l

/-- The field state established by RelayControl.__init__ before its initial
find_ch340_device and initialize_serial calls: relay off, no handle, no
path, OFF label, Turn ON button. -/
def initState : RCState :=
  { relay_status := false, serial_port := none, device_path := none,
    statusText := "OFF", buttonEnabled := true, buttonText := "Turn ON",
    deviceInfoText := "Device: Searching...",
    openHandles := [], nextHandle := 0,
    everTwoOpen := false, probeCount := 0, lastSent := none }

/-- The list of live handles a given serial_port reference accounts for. -/
def portHandleList : Option Nat → List Nat
  | some h => [h]
  | none => []

/-- Handle-table invariant: the open live handles are exactly the one
referenced by serial_port, and the two-handles-at-once flag can only have
been raised by a probe attempt. -/
def HandleInv (s : RCState) : Prop :=
  s.openHandles = portHandleList s.serial_port ∧
  (s.everTwoOpen = true → 0 < s.probeCount)

/-! Concrete devices and environments used for counterexamples and
witnesses. -/

/-- An identity-matched CH340 device at /dev/ttyUSB0. -/
def devA : Device := { node := "/dev/ttyUSB0", vendorId := some "1a86", modelId := some "7523" }

/-- A generic USB-serial device at /dev/ttyUSB1 with no identity match. -/
def devB : Device := { node := "/dev/ttyUSB1", vendorId := none, modelId := none }

/-- An identity-matched CH340 device at /dev/ttyUSB2. -/
def devC : Device := { node := "/dev/ttyUSB2", vendorId := some "1a86", modelId := some "7523" }

/-- A generic USB-serial device at /dev/ttyUSB9 with no identity match. -/
def devF : Device := { node := "/dev/ttyUSB9", vendorId := none, modelId := none }

/-- Healthy world: devA attached, every open and write succeeds. -/
def envConn : Env :=
  { devices := [devA],
    probeOpenOk := fun _ => true, probeWriteOk := fun _ => true,
    openOk := fun _ => true, pathExists := fun _ => true, writeOk := true }

/-- devA vanished; enumeration now reports only the probe-requiring devB. -/
def envGone : Env :=
  { devices := [devB],
    probeOpenOk := fun _ => true, probeWriteOk := fun _ => true,
    openOk := fun _ => true, pathExists := fun _ => false, writeOk := true }

/-- devA vanished; enumeration now reports the identity-matched devC. -/
def envNew : Env :=
  { devices := [devC],
    probeOpenOk := fun _ => true, probeWriteOk := fun _ => true,
    openOk := fun _ => true,
    pathExists := fun p => p == "/dev/ttyUSB2", writeOk := true }

/-- Empty world: no device attached, nothing succeeds. -/
def envNone : Env :=
  { devices := [],
    probeOpenOk := fun _ => false, probeWriteOk := fun _ => false,
    openOk := fun _ => false, pathExists := fun _ => false, writeOk := true }

/-- devA attached and openable, but the live write/flush fails. -/
def envFailWrite : Env :=
  { devices := [devA],
    probeOpenOk := fun _ => true, probeWriteOk := fun _ => true,
    openOk := fun _ => true, pathExists := fun _ => true, writeOk := false }

/-- devA attached but every open fails (e.g. permission denied). -/
def envNoOpen : Env :=
  { devices := [devA],
    probeOpenOk := fun _ => false, probeWriteOk := fun _ => false,
    openOk := fun _ => false, pathExists := fun _ => true, writeOk := true }

/-- No identity match; probing fails on devF but succeeds on devB. -/
def envProbe : Env :=
  { devices := [devF, devB],
    probeOpenOk := fun p => p == "/dev/ttyUSB1",
    probeWriteOk := fun _ => true,
    openOk := fun _ => true, pathExists := fun _ => true, writeOk := true }

/-! Counterexamples and code evaluations at concrete inputs. -/

/-- C1 (counterexample): the claim that no two open serial handles ever
coexist is false.  Connect to devA, then run one health check after devA's
path vanished while only the probe-requiring devB is enumerated: the
probing fallback opens a probe handle while the stale live handle to
/dev/ttyUSB0 is still held, so two handles are open at the same instant
(the ghost flag everTwoOpen is raised). -/
theorem two_open_handles_during_probe :
    (run initState [(Op.initOp, envConn), (Op.healthOp, envGone)]).everTwoOpen = true ∧
    (run initState [(Op.initOp, envConn), (Op.healthOp, envGone)]).serial_port = some 0 := by
  exact ⟨rfl, rfl⟩

/-- C2 (counterexample): the claimed equivalence between RelayState being On
and the most recent successfully transmitted frame being the ON frame is
false.  Connect, toggle successfully (ON frame sent, relay On), then toggle
while the write fails: the failed toggle reconnects within the same call
and the reconnect resets relay_status to Off, although the most recent
successfully transmitted frame is still the ON frame.  This run also
violates the second half of the claim: the write failure did not leave
RelayState unchanged (it was On before the attempt and Off after). -/
theorem relay_state_frame_mismatch :
    ¬ (((run initState [(Op.initOp, envConn), (Op.toggleOp, envConn),
          (Op.toggleOp, envFailWrite)]).relay_status = true) ↔
       ((run initState [(Op.initOp, envConn), (Op.toggleOp, envConn),
          (Op.toggleOp, envFailWrite)]).lastSent = some onFrame)) := by
  decide

/-- C3 (code evaluation at the failing input): connect to devA at
/dev/ttyUSB0, then run one health check after that path vanished while the
identity-matched devC at /dev/ttyUSB2 is enumerated.  The code updates
device_path to the rediscovered node but keeps the stale handle (serial_port
still the old handle 0), performs no connection attempt (nextHandle is
unchanged, so no open happened), and makes no Error transition (the status
label still reads OFF) — contradicting both the claim and the method's own
docstring, which says it attempts to reinitialize the connection. -/
theorem healthcheck_no_reconnect_after_rediscovery :
    (run initState [(Op.initOp, envConn), (Op.healthOp, envNew)]).device_path = some "/dev/ttyUSB2" ∧
    (run initState [(Op.initOp, envConn), (Op.healthOp, envNew)]).serial_port = some 0 ∧
    (run initState [(Op.initOp, envConn), (Op.healthOp, envNew)]).nextHandle = 1 ∧
    (run initState [(Op.initOp, envConn), (Op.healthOp, envNew)]).statusText = "OFF" := by
  exact ⟨rfl, rfl, rfl, rfl⟩

/-- C4 (counterexample): the claim that the observer receives RelayState Off
in the health-check notification after device removal is false.  Connect,
toggle the relay On, remove the device and run one health check in an empty
world: the state shows Error with devicePath None, but relay_status is
still true (On), not Off as claimed. -/
theorem healthcheck_disconnect_relay_retained :
    (run initState [(Op.initOp, envConn), (Op.toggleOp, envConn),
      (Op.healthOp, envNone)]).statusText = "Error" ∧
    (run initState [(Op.initOp, envConn), (Op.toggleOp, envConn),
      (Op.healthOp, envNone)]).device_path = none ∧
    (run initState [(Op.initOp, envConn), (Op.toggleOp, envConn),
      (Op.healthOp, envNone)]).relay_status = true := by
  exact ⟨rfl, rfl, rfl⟩

/-! Helper lemmas: frame effects of discovery and of handle release. -/

/-- The probing loop never touches the live connection fields, the relay
status, the labels other than the device info, or the allocation counter. -/
theorem probeLoop_frame (env : Env) (l : List Device) (s : RCState) :
    (probeLoop env s l).serial_port = s.serial_port ∧
    (probeLoop env s l).openHandles = s.openHandles ∧
    (probeLoop env s l).relay_status = s.relay_status ∧
    (probeLoop env s l).statusText = s.statusText ∧
    (probeLoop env s l).buttonEnabled = s.buttonEnabled ∧
    (probeLoop env s l).buttonText = s.buttonText ∧
    (probeLoop env s l).nextHandle = s.nextHandle := by
  induction l generalizing s with
  | nil => simp [probeLoop]
  | cons d ds ih =>
    by_cases h1 : hasSub "ttyUSB" d.node = true
    · by_cases h2 : env.probeOpenOk d.node = true
      · by_cases h3 : env.probeWriteOk d.node = true
        · simp [probeLoop, h1, h2, h3]
        · simpa [probeLoop, h1, h2, h3] using ih _
      · simpa [probeLoop, h1, h2] using ih _
    · simpa [probeLoop, h1] using ih _

/-- If the two-open-handles flag can only have been raised after a probe,
this stays true through the probing loop. -/
theorem probeLoop_ghost (env : Env) (l : List Device) (s : RCState)
    (h : s.everTwoOpen = true → 0 < s.probeCount) :
    (probeLoop env s l).everTwoOpen = true → 0 < (probeLoop env s l).probeCount := by
  induction l generalizing s with
  | nil => simpa [probeLoop] using h
  | cons d ds ih =>
    by_cases h1 : hasSub "ttyUSB" d.node = true
    · by_cases h2 : env.probeOpenOk d.node = true
      · by_cases h3 : env.probeWriteOk d.node = true
        · simp [probeLoop, h1, h2, h3]
        · simp only [probeLoop, h1, h2, h3, if_true, if_false]
          exact ih _ (fun _ => Nat.succ_pos _)
      · simp only [probeLoop, h1, h2, if_true, if_false]
        exact ih _ (fun _ => Nat.succ_pos _)
    · simp only [probeLoop, h1, if_false]
      exact ih _ h

/-- Discovery never touches the live connection fields, the relay status,
the power labels or the allocation counter. -/
theorem find_frame (env : Env) (s : RCState) :
    (find_ch340_device env s).serial_port = s.serial_port ∧
    (find_ch340_device env s).openHandles = s.openHandles ∧
    (find_ch340_device env s).relay_status = s.relay_status ∧
    (find_ch340_device env s).statusText = s.statusText ∧
    (find_ch340_device env s).buttonEnabled = s.buttonEnabled ∧
    (find_ch340_device env s).buttonText = s.buttonText ∧
    (find_ch340_device env s).nextHandle = s.nextHandle := by
  unfold find_ch340_device
  cases h : env.devices.find? isCH340 with
  | none => exact probeLoop_frame env env.devices s
  | some d => simp

/-- Discovery preserves the probe accounting of the two-open-handles flag. -/
theorem find_ghost (env : Env) (s : RCState)
    (h : s.everTwoOpen = true → 0 < s.probeCount) :
    (find_ch340_device env s).everTwoOpen = true → 0 < (find_ch340_device env s).probeCount := by
  unfold find_ch340_device
  cases hf : env.devices.find? isCH340 with
  | none => exact probeLoop_ghost env env.devices s h
  | some d => simpa using h

/-- Releasing the handle reference leaves every field except serial_port
and openHandles unchanged. -/
theorem closePort_frame (s : RCState) :
    (closePort s).relay_status = s.relay_status ∧
    (closePort s).device_path = s.device_path ∧
    (closePort s).statusText = s.statusText ∧
    (closePort s).buttonEnabled = s.buttonEnabled ∧
    (closePort s).buttonText = s.buttonText ∧
    (closePort s).deviceInfoText = s.deviceInfoText ∧
    (closePort s).nextHandle = s.nextHandle ∧
    (closePort s).everTwoOpen = s.everTwoOpen ∧
    (closePort s).probeCount = s.probeCount ∧
    (closePort s).lastSent = s.lastSent := by
  unfold closePort
  cases s.serial_port <;> simp

/-- Under the handle invariant, releasing the reference leaves no open
handle and no reference. -/
theorem closePort_clear (s : RCState) (h : HandleInv s) :
    (closePort s).serial_port = none ∧ (closePort s).openHandles = [] := by
  obtain ⟨h1, _⟩ := h
  unfold closePort
  cases hsp : s.serial_port with
  | none =>
    rw [hsp] at h1
    exact ⟨hsp, h1⟩
  | some a =>
    rw [hsp] at h1
    simp [h1, portHandleList]

/-- Releasing the handle reference preserves the handle invariant. -/
theorem closePort_inv (s : RCState) (h : HandleInv s) :
    HandleInv (closePort s) := by
  obtain ⟨hser, hopen⟩ := closePort_clear s h
  obtain ⟨-, -, -, -, -, -, -, he, hp, -⟩ := closePort_frame s
  exact ⟨by rw [hser, hopen]; rfl, by rw [he, hp]; exact h.2⟩

/-- Releasing when no handle reference is held is a no-op. -/
theorem closePort_none (s : RCState) (h : s.serial_port = none) : closePort s = s := by
  unfold closePort
  rw [h]

/-- Discovery preserves the handle invariant. -/
theorem find_inv (env : Env) (s : RCState) (h : HandleInv s) :
    HandleInv (find_ch340_device env s) := by
  obtain ⟨hser, hopen, -⟩ := find_frame env s
  exact ⟨by rw [hser, hopen]; exact h.1, find_ghost env s h.2⟩

/-- Reinitialization preserves the handle invariant: the held handle is
closed before a fresh one is opened, and discovery raises the
two-open-handles flag only by probing. -/
theorem init_serial_inv (env : Env) (s : RCState) (h : HandleInv s) :
    HandleInv (init_serial env s) := by
  have hc : HandleInv (closePort s) := closePort_inv s h
  have hcc := closePort_clear s h
  simp only [init_serial]
  set s1 := closePort s with hs1
  set s2 := if s1.device_path = none then find_ch340_device env s1 else s1 with hs2
  have h2inv : HandleInv s2 := by
    rw [hs2]; split
    · exact find_inv env s1 hc
    · exact hc
  have h2ser : s2.serial_port = none := by
    rw [hs2]; split
    · rw [(find_frame env s1).1]; exact hcc.1
    · exact hcc.1
  have h2open : s2.openHandles = [] := by
    rw [hs2]; split
    · rw [(find_frame env s1).2.1]; exact hcc.2
    · exact hcc.2
  split
  · rw [closePort_none s2 h2ser]
    exact ⟨by simp [h2ser, h2open, portHandleList], h2inv.2⟩
  · split
    · refine ⟨?_, ?_⟩
      · simp [update_status, portHandleList, h2open]
      · simp [update_status, h2open]
        exact fun hh => h2inv.2 hh
    · rw [closePort_none s2 h2ser]
      exact ⟨by simp [h2ser, h2open, portHandleList], h2inv.2⟩

/-- Toggling preserves the handle invariant: a successful write touches no
handle, and the failure path releases the handle before reinitializing. -/
theorem toggle_inv (env : Env) (s : RCState) (h : HandleInv s) :
    HandleInv (toggle_relay env s) := by
  unfold toggle_relay
  cases hsp : s.serial_port with
  | none => exact init_serial_inv env s h
  | some a =>
    by_cases hw : env.writeOk = true
    · rw [if_pos hw]
      by_cases hr : (!s.relay_status) = true
      · rw [if_pos hr]
        exact ⟨by have h1 := h.1; rw [hsp] at h1; simpa [update_status] using h1,
               by simpa [update_status] using h.2⟩
      · rw [if_neg hr]
        exact ⟨by have h1 := h.1; rw [hsp] at h1; simpa [update_status] using h1,
               by simpa [update_status] using h.2⟩
    · rw [if_neg hw]
      have hm : HandleInv { closePort s with statusText := "Error" } := by
        have hcp := closePort_inv s h
        exact ⟨by simpa using hcp.1, by simpa using hcp.2⟩
      exact init_serial_inv env { closePort s with statusText := "Error" } hm

/-- The health check preserves the handle invariant. -/
theorem check_inv (env : Env) (s : RCState) (h : HandleInv s) :
    HandleInv (check_connection env s) := by
  simp only [check_connection]
  split
  · have h1 : HandleInv (find_ch340_device env s) := find_inv env s h
    split
    · have hcp := closePort_inv _ h1
      exact ⟨by simpa using hcp.1, by simpa using hcp.2⟩
    · exact h1
  · split
    · exact init_serial_inv env s h
    · exact h

/-- Every operation preserves the handle invariant. -/
theorem step_inv (s : RCState) (oe : Op × Env) (h : HandleInv s) :
    HandleInv (step s oe) := by
  obtain ⟨op, e⟩ := oe
  cases op with
  | initOp => exact init_serial_inv e s h
  | toggleOp => exact toggle_inv e s h
  | healthOp => exact check_inv e s h

/-- The handle invariant is inductive along any run. -/
theorem run_inv_aux (l : List (Op × Env)) :
    ∀ s : RCState, HandleInv s → HandleInv (run s l) := by
  induction l with
  | nil => exact fun s h => h
  | cons oe rest ih => exact fun s h => ih _ (step_inv s oe h)

/-- C1 (amended): along any sequence of operations, the open live handles
are exactly the single handle referenced by serial_port — so at most one
live connection handle is ever open, and a new live handle is only opened
after the previous one has been closed.  The only way two handles can ever
have been open at the same instant (the everTwoOpen flag) is a short-lived
probe handle of the discovery fallback, opened while a stale live handle
was still held. -/
theorem run_handle_inv (l : List (Op × Env)) : HandleInv (run initState l) := by
  refine run_inv_aux l initState ⟨rfl, ?_⟩
  intro hh
  simp [initState] at hh

/-! Further helper lemmas used by the per-operation theorems. -/

/-- After a release, no handle reference is held (whether or not one was). -/
theorem closePort_serial (s : RCState) : (closePort s).serial_port = none := by
  unfold closePort
  cases h : s.serial_port with
  | none => exact h
  | some a => rfl

/-- A pass-2 candidate is accepted exactly when its node contains ttyUSB
and both the probe open and the probe write succeed on it. -/
def probeCandOk (env : Env) (d : Device) : Bool :=
  hasSub "ttyUSB" d.node && (env.probeOpenOk d.node && env.probeWriteOk d.node)

/-- The probing loop selects precisely the first acceptable candidate,
skipping every failing one, and yields no path when all fail. -/
theorem probeLoop_path (env : Env) (l : List Device) (s : RCState) :
    (probeLoop env s l).device_path = (l.find? (probeCandOk env)).map Device.node := by
  induction l generalizing s with
  | nil => simp [probeLoop]
  | cons d ds ih =>
    by_cases h1 : hasSub "ttyUSB" d.node = true
    · by_cases h2 : env.probeOpenOk d.node = true
      · by_cases h3 : env.probeWriteOk d.node = true
        · simp [probeLoop, probeCandOk, h1, h2, h3]
        · simp [probeLoop, probeCandOk, h1, h2, h3, ih]
      · simp [probeLoop, probeCandOk, h1, h2, ih]
    · simp [probeLoop, probeCandOk, h1, ih]

/-- Releasing the handle reference does not touch the transmission log. -/
theorem closePort_lastSent (s : RCState) : (closePort s).lastSent = s.lastSent := by
  unfold closePort
  cases s.serial_port <;> simp

/-- When a device path is already selected, reinitialization transmits
nothing on the wire (no discovery probing runs). -/
theorem init_serial_lastSent (env : Env) (s : RCState) (p : String)
    (hp : s.device_path = some p) :
    (init_serial env s).lastSent = s.lastSent := by
  have hcp : (closePort s).device_path = some p := by
    rw [(closePort_frame s).2.1, hp]
  simp only [init_serial, hcp]
  simp only [reduceCtorEq, if_false]
  split
  · rename_i heq
    rw [hcp] at heq
    cases heq
  · split
    · simp [update_status, closePort_lastSent]
    · simp [closePort_lastSent]

/-! Per-claim theorems. -/

/-- C5: whenever the enumeration contains an identity match (vendor 1a86,
product 7523), discovery returns the first identity-matched device and
never a probed one: the selected path is that device's node, no probe
attempt runs, and nothing is written on the wire. -/
theorem locate_identity_precedence (env : Env) (s : RCState) (d : Device)
    (h : env.devices.find? isCH340 = some d) :
    (find_ch340_device env s).device_path = some d.node ∧
    (find_ch340_device env s).probeCount = s.probeCount ∧
    (find_ch340_device env s).lastSent = s.lastSent := by
  unfold find_ch340_device
  rw [h]
  exact ⟨rfl, rfl, rfl⟩

/-- Witness for C5 at a concrete input: devA is the identity match and is
selected directly. -/
theorem locate_identity_precedence_witness :
    envConn.devices.find? isCH340 = some devA ∧
    ((find_ch340_device envConn initState).device_path = some devA.node ∧
     (find_ch340_device envConn initState).probeCount = initState.probeCount ∧
     (find_ch340_device envConn initState).lastSent = initState.lastSent) :=
  ⟨by decide, locate_identity_precedence envConn initState devA (by decide)⟩

/-- C8: discovery is a total scan that swallows per-candidate failures:
when no identity match exists, the selected path is exactly the node of the
first pass-2 candidate whose probe open and write both succeed — failures
on earlier candidates merely continue the scan — and when every candidate
fails the result is the empty optional (device_path none), not an error. -/
theorem locate_total_scan (env : Env) (s : RCState)
    (h : env.devices.find? isCH340 = none) :
    (find_ch340_device env s).device_path =
      (env.devices.find? (probeCandOk env)).map Device.node := by
  unfold find_ch340_device
  rw [h]
  exact probeLoop_path env env.devices s

/-- Witness for C8 at a concrete input: no identity match; the probe fails
on devF and succeeds on devB, so devB's node is selected. -/
theorem locate_total_scan_witness :
    envProbe.devices.find? isCH340 = none ∧
    (find_ch340_device envProbe initState).device_path =
      (envProbe.devices.find? (probeCandOk envProbe)).map Device.node :=
  ⟨by decide, locate_total_scan envProbe initState (by decide)⟩

/-- C9: discovery mutates only the selected path and display labels — the
live connection reference, the open-handle table, the relay status, the
power label and the button are all unchanged by any find_ch340_device call,
even when a pass-2 probe writes the OFF frame to a candidate device. -/
theorem locate_frame_effect (env : Env) (s : RCState) :
    (find_ch340_device env s).serial_port = s.serial_port ∧
    (find_ch340_device env s).relay_status = s.relay_status ∧
    (find_ch340_device env s).openHandles = s.openHandles ∧
    (find_ch340_device env s).statusText = s.statusText ∧
    (find_ch340_device env s).buttonEnabled = s.buttonEnabled ∧
    (find_ch340_device env s).buttonText = s.buttonText :=
  ⟨(find_frame env s).1, (find_frame env s).2.2.1, (find_frame env s).2.1,
   (find_frame env s).2.2.2.1, (find_frame env s).2.2.2.2.1,
   (find_frame env s).2.2.2.2.2.1⟩

/-- C10: whenever reinitialization fails with a serial error (equivalently,
whenever it leaves the Error label, the only failure indication), the
post-state holds no connection handle at all and the toggle button is
disabled. -/
theorem init_failure_no_handle (env : Env) (s : RCState)
    (h : (init_serial env s).statusText = "Error") :
    (init_serial env s).serial_port = none ∧
    (init_serial env s).buttonEnabled = false := by
  revert h
  simp only [init_serial]
  split
  · exact fun _ => ⟨by simpa using closePort_serial _, rfl⟩
  · split
    · intro h
      simp [update_status] at h
    · exact fun _ => ⟨by simpa using closePort_serial _, rfl⟩

/-- Witness for C10 at a concrete input: in an empty world initialization
fails; afterwards no handle is held and the button is disabled. -/
theorem init_failure_no_handle_witness :
    (init_serial envNone initState).statusText = "Error" ∧
    ((init_serial envNone initState).serial_port = none ∧
     (init_serial envNone initState).buttonEnabled = false) :=
  ⟨rfl, init_failure_no_handle envNone initState rfl⟩

/-- C7: with no usable handle, a toggle call is exactly a reinitialization
attempt: it produces the same resulting state as init_serial on the same
state and environment, and — whenever a device path is already selected, so
that no discovery probing is involved — it transmits nothing on the wire in
that same call, even if the connection attempt inside it succeeds. -/
theorem toggle_no_handle_equiv (env : Env) (s : RCState)
    (h : s.serial_port = none) :
    toggle_relay env s = init_serial env s ∧
    (∀ p : String, s.device_path = some p →
      (toggle_relay env s).lastSent = s.lastSent) := by
  have h1 : toggle_relay env s = init_serial env s := by
    unfold toggle_relay
    rw [h]
  refine ⟨h1, fun p hp => ?_⟩
  rw [h1]
  exact init_serial_lastSent env s p hp

/-- Witness for C7 at a concrete input: after a failed open, the state has
a selected path but no handle; toggling equals reinitializing and sends no
frame although the connection attempt succeeds. -/
theorem toggle_no_handle_equiv_witness :
    (run initState [(Op.initOp, envNoOpen)]).serial_port = none ∧
    (toggle_relay envConn (run initState [(Op.initOp, envNoOpen)]) =
       init_serial envConn (run initState [(Op.initOp, envNoOpen)]) ∧
     (∀ p : String, (run initState [(Op.initOp, envNoOpen)]).device_path = some p →
       (toggle_relay envConn (run initState [(Op.initOp, envNoOpen)])).lastSent =
         (run initState [(Op.initOp, envNoOpen)]).lastSent)) :=
  ⟨rfl, toggle_no_handle_equiv envConn (run initState [(Op.initOp, envNoOpen)]) rfl⟩

/-- C6: a toggle that suffers a write failure while a handle is held
releases the handle (the reference is dropped and the handle leaves the
open-handle table), shows the Error state, leaves the relay status
unchanged at that point, and then performs a reinitialization attempt
within that same toggle call: the call is literally init_serial applied to
the released Error state. -/
theorem toggle_failure_recovery (env : Env) (s : RCState) (hdl : Nat)
    (h1 : s.serial_port = some hdl) (h2 : env.writeOk = false) :
    toggle_relay env s = init_serial env { closePort s with statusText := "Error" } ∧
    ({ closePort s with statusText := "Error" } : RCState).serial_port = none ∧
    ({ closePort s with statusText := "Error" } : RCState).openHandles =
      s.openHandles.erase hdl ∧
    ({ closePort s with statusText := "Error" } : RCState).relay_status =
      s.relay_status := by
  refine ⟨?_, by simpa using closePort_serial s, ?_, by simpa using (closePort_frame s).1⟩
  · unfold toggle_relay
    rw [h1, h2]
    simp
  · simp [closePort, h1]

/-- Witness for C6 at a concrete input: connected with handle 0, the write
fails; the call equals reinitialization of the released Error state. -/
theorem toggle_failure_recovery_witness :
    (run initState [(Op.initOp, envConn)]).serial_port = some 0 ∧
    envFailWrite.writeOk = false ∧
    (toggle_relay envFailWrite (run initState [(Op.initOp, envConn)]) =
       init_serial envFailWrite
         { closePort (run initState [(Op.initOp, envConn)]) with statusText := "Error" } ∧
     ({ closePort (run initState [(Op.initOp, envConn)]) with
          statusText := "Error" } : RCState).serial_port = none ∧
     ({ closePort (run initState [(Op.initOp, envConn)]) with
          statusText := "Error" } : RCState).openHandles =
       (run initState [(Op.initOp, envConn)]).openHandles.erase 0 ∧
     ({ closePort (run initState [(Op.initOp, envConn)]) with
          statusText := "Error" } : RCState).relay_status =
       (run initState [(Op.initOp, envConn)]).relay_status) :=
  ⟨rfl, rfl, toggle_failure_recovery envFailWrite (run initState [(Op.initOp, envConn)]) 0 rfl rfl⟩

/-- C2 (amended): while a handle is held, a successful toggle write makes
relay_status correspond exactly to the transmitted frame — afterwards the
relay is On if and only if the last transmitted frame is the ON frame — and
a failed write leaves relay_status (and the transmission log) unchanged at
the point of failure; the call then continues as a reinitialization of that
unchanged-relay Error state, and it is that embedded reconnection (like any
successful init_serial) that may reset relay_status to Off without a
transmission, which is why the original iff fails across reconnections. -/
theorem toggle_state_frame_correspondence (env : Env) (s : RCState) (hdl : Nat)
    (h : s.serial_port = some hdl) :
    (env.writeOk = true →
      ((toggle_relay env s).relay_status = !s.relay_status ∧
       ((toggle_relay env s).lastSent = some onFrame ↔
        (toggle_relay env s).relay_status = true))) ∧
    (env.writeOk = false →
      (toggle_relay env s =
         init_serial env { closePort s with statusText := "Error" } ∧
       ({ closePort s with statusText := "Error" } : RCState).relay_status =
         s.relay_status ∧
       ({ closePort s with statusText := "Error" } : RCState).lastSent =
         s.lastSent)) := by
  constructor
  · intro hw
    unfold toggle_relay
    rw [h, hw]
    cases hr : s.relay_status with
    | false => simp [update_status, hr]
    | true => simp [update_status, hr, onFrame, offFrame]
  · intro hw
    refine ⟨?_, by simpa using (closePort_frame s).1, by simp [closePort_lastSent]⟩
    unfold toggle_relay
    rw [h, hw]
    simp

/-- Witness for C2 (amended) at a concrete input: freshly connected with
handle 0 and a healthy environment. -/
theorem toggle_state_frame_correspondence_witness :
    (run initState [(Op.initOp, envConn)]).serial_port = some 0 ∧
    ((envConn.writeOk = true →
      ((toggle_relay envConn (run initState [(Op.initOp, envConn)])).relay_status =
         !(run initState [(Op.initOp, envConn)]).relay_status ∧
       ((toggle_relay envConn (run initState [(Op.initOp, envConn)])).lastSent = some onFrame ↔
        (toggle_relay envConn (run initState [(Op.initOp, envConn)])).relay_status = true))) ∧
     (envConn.writeOk = false →
      (toggle_relay envConn (run initState [(Op.initOp, envConn)]) =
         init_serial envConn
           { closePort (run initState [(Op.initOp, envConn)]) with statusText := "Error" } ∧
       ({ closePort (run initState [(Op.initOp, envConn)]) with
            statusText := "Error" } : RCState).relay_status =
         (run initState [(Op.initOp, envConn)]).relay_status ∧
       ({ closePort (run initState [(Op.initOp, envConn)]) with
            statusText := "Error" } : RCState).lastSent =
         (run initState [(Op.initOp, envConn)]).lastSent))) :=
  ⟨rfl, toggle_state_frame_correspondence envConn (run initState [(Op.initOp, envConn)]) 0 rfl⟩

/-- C4 (amended): if the selected device path stops existing while a handle
is held and rediscovery finds nothing, one health-check call yields the
Error state with devicePath None, no handle and a disabled toggle — but the
observed relay status is the retained previous value, not Off: relay_status
is reset to Off only by a later successful init_serial. -/
theorem healthcheck_disconnect_observed (env : Env) (s : RCState) (hdl : Nat)
    (h1 : s.serial_port = some hdl)
    (h2 : pathMissing env s = true)
    (h3 : (find_ch340_device env s).device_path = none) :
    (check_connection env s).statusText = "Error" ∧
    (check_connection env s).device_path = none ∧
    (check_connection env s).serial_port = none ∧
    (check_connection env s).buttonEnabled = false ∧
    (check_connection env s).relay_status = s.relay_status := by
  simp only [check_connection, h2, if_true, h3, if_pos]
  refine ⟨by simp, ?_, by simpa using closePort_serial _, by simp, ?_⟩
  · have := (closePort_frame (find_ch340_device env s)).2.1
    simpa [this] using h3
  · have hc := (closePort_frame (find_ch340_device env s)).1
    have hf := (find_frame env s).2.2.1
    simp [hc, hf]

/-- Witness for C4 (amended) at a concrete input: connected and toggled On,
then the device vanishes and the world is empty; the health check reports
Error with no path and no handle, and the relay status is retained. -/
theorem healthcheck_disconnect_observed_witness :
    (run initState [(Op.initOp, envConn), (Op.toggleOp, envConn)]).serial_port = some 0 ∧
    pathMissing envNone (run initState [(Op.initOp, envConn), (Op.toggleOp, envConn)]) = true ∧
    (find_ch340_device envNone
      (run initState [(Op.initOp, envConn), (Op.toggleOp, envConn)])).device_path = none ∧
    ((check_connection envNone
        (run initState [(Op.initOp, envConn), (Op.toggleOp, envConn)])).statusText = "Error" ∧
     (check_connection envNone
        (run initState [(Op.initOp, envConn), (Op.toggleOp, envConn)])).device_path = none ∧
     (check_connection envNone
        (run initState [(Op.initOp, envConn), (Op.toggleOp, envConn)])).serial_port = none ∧
     (check_connection envNone
        (run initState [(Op.initOp, envConn), (Op.toggleOp, envConn)])).buttonEnabled = false ∧
     (check_connection envNone
        (run initState [(Op.initOp, envConn), (Op.toggleOp, envConn)])).relay_status =
       (run initState [(Op.initOp, envConn), (Op.toggleOp, envConn)]).relay_status) :=
  ⟨rfl, rfl, rfl,
   healthcheck_disconnect_observed envNone
     (run initState [(Op.initOp, envConn), (Op.toggleOp, envConn)]) 0 rfl rfl rfl⟩
